import Mathlib

/-!
Verification development for the github-repo-traffic-stats service.

The embedding below translates the parts of the source that the claims
under scrutiny are about:

* `src/app/services/chart_generator.py` — theme loading, y-axis tick
  computation, smooth-path construction, traffic aggregation, and the SVG
  chart builder;
* `src/app/main.py` — the `/api` request handler, its two in-memory caches,
  the background-job bookkeeping, and the idle sweep
  `check_and_remove_task`;
* a small thread-interleaving machine for the cache-population path of the
  handler (spec section 5 discusses its concurrency).

Modelling conventions:
* Numeric values are carried as exact rationals (`ℚ`).  The chart geometry
  is embedded in the exact-arithmetic reading of the source's float
  expressions; for the axis-tick computation, whose claimed properties
  turn out to depend on rounding, a binary64 model (`roundDouble`,
  `calculate_y_ticks_double`) is developed alongside the exact reading
  and the two are compared under C5.
* Python strings are Lean `String`s; the source's string operations (all of
  which split on or search for a single character) are re-implemented over
  `String.data` so that they compute by kernel reduction.
* Filesystem and network collaborators (theme files, the GitHub fetchers)
  and the numeric arc-length routine of `svgpathtools` are explicit
  function/data parameters; the source consults no clock and no randomness
  inside the modelled code, which the determinism claims make explicit.
-/

namespace TrafficStats

/-- A single apostrophe character, used to embed source strings that contain
one (error messages and the chart title). -/
def apos : String := String.singleton (Char.ofNat 39)

/-- Python `s.split(c)` for a one-character separator: worker over the
character list, accumulating the current piece in reverse. -/
def pySplitAux (c : Char) : List Char → List (List Char) → List Char → List (List Char)
  | [], acc, cur => acc ++ [cur.reverse]
  | x :: xs, acc, cur =>
    if x = c then pySplitAux c xs (acc ++ [cur.reverse]) [] else pySplitAux c xs acc (x :: cur)

/-- Python `s.split(c)` for a one-character separator; like Python,
`"".split(c) = [""]` and empty pieces are kept. -/
def pySplit (c : Char) (s : String) : List String :=
  (pySplitAux c s.data [] []).map String.mk

/-- Python `c in s` membership test for a single character. -/
def pyContainsChar (s : String) (c : Char) : Bool := s.data.contains c

/-- Python `s.strip()`: drop leading and trailing whitespace. -/
def pyTrim (s : String) : String :=
  String.mk (((s.data.dropWhile Char.isWhitespace).reverse.dropWhile Char.isWhitespace).reverse)

/-- One traffic observation as delivered by the GitHub traffic API: an ISO
timestamp string and a count (items of the `clones` / `views` arrays
consumed in chart_generator.py lines 119–130). -/
structure TrafficPoint where
  timestamp : String
  count : ℕ
deriving DecidableEq, Repr

/-- Per-repository traffic record.  In the source each element of
`traffic_results` is a one-key dict mapping the repository name to its
clones and views arrays (github_api.py lines 40–44); chart_generator.py
lines 113–116 read the single key and its value. -/
structure RepoTraffic where
  repoName : String
  clones : List TrafficPoint
  views : List TrafficPoint
deriving DecidableEq, Repr

/-- chart_generator.py lines 105–109: the exclusion list is empty when the
parameter is absent or falsy; otherwise the string is split on commas only
when it contains a comma, and is wrapped as a one-element list otherwise.
No trimming and no dropping of empty pieces happens. -/
def parseExcludeRepos (exclude_repos : Option String) : List String :=
  match exclude_repos with
  | none => []
  | some s => if s = "" then [] else if pyContainsChar s ',' then pySplit ',' s else [s]

/-- Modelled from the spec: the canonical exclusion-list parsing named by
spec section 9 (open question) — split on comma, trim whitespace, drop empty
parts.  Used only to compare the claim's wording against the source. -/
def parseExcludeReposSpec (s : String) : List String :=
  ((pySplit ',' s).map pyTrim).filter (fun t => t != "")

/-- chart_generator.py lines 120 and 127: `date["timestamp"].split("T")[0]`,
the calendar-day part of an ISO timestamp. -/
def dateOf (ts : String) : String := (pySplit 'T' ts).headD ts

/-- One bucket of the aggregated daily series: chart_generator.py line 122
creates it as `{"clones": 0, "views": 0}` on first touch. -/
structure Bucket where
  clones : ℕ
  views : ℕ
deriving DecidableEq, Repr

/-- Lookup in the insertion-ordered association list that models the Python
dict `traffic_data`. -/
def alookup (m : List (String × Bucket)) (k : String) : Option Bucket :=
  match m with
  | [] => none
  | (k1, v) :: rest => if k1 = k then some v else alookup rest k

/-- chart_generator.py lines 119–123: create the day's bucket with
`{clones: 0, views: 0}` if absent (inserted at the end, as a Python dict
does) and add `count` to its `clones` field. -/
def addClones (m : List (String × Bucket)) (k : String) (c : ℕ) : List (String × Bucket) :=
  match m with
  | [] => [(k, ⟨c, 0⟩)]
  | (k1, v) :: rest =>
    if k1 = k then (k1, ⟨v.clones + c, v.views⟩) :: rest else (k1, v) :: addClones rest k c

/-- chart_generator.py lines 126–130: the same bucket update for `views`. -/
def addViews (m : List (String × Bucket)) (k : String) (c : ℕ) : List (String × Bucket) :=
  match m with
  | [] => [(k, ⟨0, c⟩)]
  | (k1, v) :: rest =>
    if k1 = k then (k1, ⟨v.clones, v.views + c⟩) :: rest else (k1, v) :: addViews rest k c

/-- chart_generator.py lines 118–130: fold one repository's clones and then
its views arrays into the daily series. -/
def processRepo (m : List (String × Bucket)) (t : RepoTraffic) : List (String × Bucket) :=
  let m1 := t.clones.foldl (fun acc p => addClones acc (dateOf p.timestamp) p.count) m
  t.views.foldl (fun acc p => addViews acc (dateOf p.timestamp) p.count) m1

/-- chart_generator.py lines 112–130: build `traffic_data` from the
per-repository records, skipping repositories whose name is in the
exclusion list. -/
def aggregateTraffic (rs : List RepoTraffic) (ex : List String) : List (String × Bucket) :=
  rs.foldl (fun acc t => if ex.contains t.repoName then acc else processRepo acc t) []

/-- The clones count recorded for day `d` (0 when the day is absent). -/
def clonesAt (m : List (String × Bucket)) (d : String) : ℕ :=
  match alookup m d with
  | none => 0
  | some b => b.clones

/-- The views count recorded for day `d` (0 when the day is absent). -/
def viewsAt (m : List (String × Bucket)) (d : String) : ℕ :=
  match alookup m d with
  | none => 0
  | some b => b.views

/-- Whether day `d` has a bucket in the daily series. -/
def presentIn (m : List (String × Bucket)) (d : String) : Bool :=
  (alookup m d).isSome

/-- The total of the counts of the points of one repository array that fall
on calendar day `d`. -/
def repoSumOn (pts : List TrafficPoint) (d : String) : ℕ :=
  ((pts.filter (fun p => dateOf p.timestamp == d)).map (fun p => p.count)).sum

/-- The sum, over all repositories not in the exclusion list, of their
clones counts on day `d` — the reference value the claim describes. -/
def sumClonesOn (rs : List RepoTraffic) (ex : List String) (d : String) : ℕ :=
  ((rs.filter (fun t => !ex.contains t.repoName)).map (fun t => repoSumOn t.clones d)).sum

/-- The sum, over all repositories not in the exclusion list, of their
views counts on day `d`. -/
def sumViewsOn (rs : List RepoTraffic) (ex : List String) (d : String) : ℕ :=
  ((rs.filter (fun t => !ex.contains t.repoName)).map (fun t => repoSumOn t.views d)).sum

/-- Some non-excluded repository has a traffic point on day `d`. -/
def contributesTo (rs : List RepoTraffic) (ex : List String) (d : String) : Prop :=
  ∃ t ∈ rs, t.repoName ∉ ex ∧
    ((∃ p ∈ t.clones, dateOf p.timestamp = d) ∨ (∃ p ∈ t.views, dateOf p.timestamp = d))

/-- chart_generator.py line 136: `sorted(traffic_data.keys())`; Python's
sort is the unique ascending permutation of the (distinct) keys, modelled by
insertion sort under the lexicographic string order. -/
def sortedKeys (m : List (String × Bucket)) : List String :=
  List.insertionSort (fun a b => a ≤ b) (m.map Prod.fst)

/-- The dates consumed downstream, in the order the source consumes them. -/
def sortedDatesOf (rs : List RepoTraffic) (ex : List String) : List String :=
  sortedKeys (aggregateTraffic rs ex)

/-- A command of an SVG path description: the source's `create_smooth_path`
emits one move-to followed by cubic Bézier segments. -/
inductive PathCmd where
  | move (p : ℚ × ℚ)
  | cubic (c1 c2 p : ℚ × ℚ)
deriving DecidableEq, Repr

/-- chart_generator.py lines 70–75, the loop body: each consecutive pair of
points contributes one cubic segment whose control points sit at one third
and two thirds of the horizontal span, at the respective endpoint heights. -/
def bezierSeg (pr : (ℚ × ℚ) × (ℚ × ℚ)) : PathCmd :=
  PathCmd.cubic
    (pr.1.1 + (pr.2.1 - pr.1.1) / 3, pr.1.2)
    (pr.2.1 - (pr.2.1 - pr.1.1) / 3, pr.2.2)
    pr.2

/-- The segments of chart_generator.py lines 70–75: the first argument is
`data_points[i-1]`, the list the remaining points. -/
def smoothSegs : (ℚ × ℚ) → List (ℚ × ℚ) → List PathCmd
  | _, [] => []
  | p0, p1 :: rest => bezierSeg (p0, p1) :: smoothSegs p1 rest

/-- chart_generator.py lines 65–76 as a command sequence: empty input gives
no commands, otherwise a move-to to the first point followed by the cubic
segments. -/
def smoothPathCmds : List (ℚ × ℚ) → List PathCmd
  | [] => []
  | p :: rest => PathCmd.move p :: smoothSegs p rest

/-- Deterministic rendering of one rational for the embedded path/transform
strings.  The source prints Python floats; no claim constrains the digit
format, only that the rendering is a fixed function of the value. -/
def q2s (q : ℚ) : String := toString q.num ++ "/" ++ toString q.den

/-- Rendering of a coordinate pair, `x,y` as in the source's f-strings. -/
def pt2s (p : ℚ × ℚ) : String := q2s p.1 ++ "," ++ q2s p.2

/-- Rendering of one path command, mirroring the `M`/`C` pieces the source
concatenates. -/
def pathCmdStr : PathCmd → String
  | PathCmd.move p => "M " ++ pt2s p
  | PathCmd.cubic c1 c2 p => " C " ++ pt2s c1 ++ " " ++ pt2s c2 ++ " " ++ pt2s p

/-- chart_generator.py lines 65–76 at the string level: the empty list gives
the empty string, otherwise the concatenation of the rendered commands. -/
def create_smooth_path (ps : List (ℚ × ℚ)) : String :=
  String.join ((smoothPathCmds ps).map pathCmdStr)

/-- chart_generator.py line 46 in the exact-arithmetic reading of the
computation: `10 ** math.floor(math.log10(max_value))` with the logarithm
floor taken exactly (`Int.log 10`).  The source evaluates `math.log10` on
the binary64 rounding of `max_value`; the rounding reading is
`pow10Double`/`floorLog10Double` below, and C5's correction records where
the two part ways (inputs beyond 2^53). -/
def niceMagnitude (max_value : ℚ) : ℚ := (10 : ℚ) ^ (Int.log 10 max_value)

/-- chart_generator.py line 47. -/
def possible_steps : List ℚ := [1, 2, 5, 10]

/-- chart_generator.py lines 50–55 and 58–62 in exact arithmetic: given a
step multiplier and the magnitude, form the unit, the tick count
`n = ceil(max_value / unit)`, the nice maximum `n * unit` and the tick
list `[i * unit for i in range(n + 1)]`.  The source performs these
divisions and products in binary64; the rounding reading is
`ticksForDouble` below. -/
def ticksFor (max_value step magnitude : ℚ) : ℚ × List ℚ :=
  let unit := step * magnitude / 10
  let n : ℕ := (⌈max_value / unit⌉).toNat
  ((n : ℚ) * unit, (List.range (n + 1)).map (fun i : ℕ => (i : ℚ) * unit))

/-- chart_generator.py lines 32–62 in the exact-arithmetic reading (every
float operation replaced by the exact rational one — the idealization the
spec's formulas in section 4.2 describe): `(0, [0])` for a non-positive
maximum; otherwise the first step multiplier in `{1,2,5,10}` whose tick
count fits the budget is used, and failing that the last multiplier (10).
The source's own binary64 computation is `calculate_y_ticks_double` below;
the two agree while no intermediate value is rounded, and C5's
counterexample exhibits an input (`10^16 + 1`) where they differ. -/
def calculate_y_ticks (max_value : ℚ) (target_ticks : ℕ) : ℚ × List ℚ :=
  if max_value ≤ 0 then (0, [0])
  else
    match possible_steps.find?
        (fun step =>
          decide (⌈max_value / (step * niceMagnitude max_value / 10)⌉ ≤ (target_ticks : ℤ))) with
    | some step => ticksFor max_value step (niceMagnitude max_value)
    | none => ticksFor max_value 10 (niceMagnitude max_value)

/-- Round a rational to the nearest integer, ties to even — the rounding
IEEE 754 binary64 applies to the scaled significand. -/
def rne (q : ℚ) : ℤ :=
  if q - ⌊q⌋ < 1/2 then ⌊q⌋
  else if 1/2 < q - ⌊q⌋ then ⌊q⌋ + 1
  else if ⌊q⌋ % 2 = 0 then ⌊q⌋ else ⌊q⌋ + 1

/-- Round a rational to the nearest IEEE 754 binary64 value
(round-to-nearest, ties-to-even, 53-bit significand), represented again as
the exact rational it denotes: with `e` the exponent of `|x|`'s binade, the
value is scaled so the significand occupies 53 bits, rounded to an integer
with `rne`, and scaled back.  Overflow and subnormals are outside the
mid-range magnitudes the tick computation handles and are not modelled.
This is the rounding CPython applies when converting an int to a float and
what a correctly rounded arithmetic operation applies to its exact
result. -/
def roundDouble (x : ℚ) : ℚ :=
  if x = 0 then 0
  else (rne (x * 2 ^ ((52 : ℤ) - Int.log 2 |x|)) : ℚ) / 2 ^ ((52 : ℤ) - Int.log 2 |x|)

/-- Model of `math.floor(math.log10(v))` for a positive double `v`: the
floor of the exact base-10 logarithm of `v`.  CPython computes this
through the platform's `log10`, which returns a double within rounding
error of the exact logarithm; the floor of that double can exceed the
exact floor only when `v` lies within one rounding error below a power of
ten.  No such value occurs in the theorems below — there the argument is
exactly `10^16`, whose logarithm every faithful `log10` returns as the
exact double 16.0. -/
def floorLog10Double (v : ℚ) : ℤ := Int.log 10 v

/-- Model of `10 ** k` at chart_generator.py line 46: `math.floor` returns
a Python int, so for `k ≥ 0` the power is an exact int; for negative `k`
Python produces a float. -/
def pow10Double (k : ℤ) : ℚ :=
  if 0 ≤ k then (10 : ℚ) ^ k else roundDouble ((10 : ℚ) ^ k)

/-- chart_generator.py lines 50–55 and 58–62 under binary64 arithmetic:
`unit = step * magnitude / 10` is an exact int product followed by a
correctly rounded float division; `max_value / unit` converts the int
maximum to a double and divides, correctly rounded (`fmax` is that
converted maximum); `math.ceil` is exact on the resulting double;
`n * unit` and each `i * unit` are correctly rounded products. -/
def ticksForDouble (fmax step magnitude : ℚ) : ℚ × List ℚ :=
  let unit := roundDouble (step * magnitude / 10)
  let n : ℕ := (⌈roundDouble (fmax / unit)⌉).toNat
  (roundDouble ((n : ℚ) * unit),
   (List.range (n + 1)).map (fun i : ℕ => roundDouble ((i : ℚ) * unit)))

/-- chart_generator.py lines 32–62 under binary64 arithmetic: the
comparison with 0 is exact (Python compares the int or float directly);
the magnitude is `10 ** floor(log10(float(max_value)))`; each candidate
step's tick count is computed on the rounded values, and the first fitting
candidate (else the fallback multiplier 10) feeds `ticksForDouble`. -/
def calculate_y_ticks_double (max_value : ℚ) (target_ticks : ℕ) : ℚ × List ℚ :=
  if max_value ≤ 0 then (0, [0])
  else
    match possible_steps.find? (fun step =>
        decide (⌈roundDouble (roundDouble max_value /
            roundDouble (step * pow10Double (floorLog10Double (roundDouble max_value)) / 10))⌉
          ≤ (target_ticks : ℤ))) with
    | some step =>
      ticksForDouble (roundDouble max_value) step
        (pow10Double (floorLog10Double (roundDouble max_value)))
    | none =>
      ticksForDouble (roundDouble max_value) 10
        (pow10Double (floorLog10Double (roundDouble max_value)))

/-- The record stored in one theme JSON file, as read by
chart_generator.py lines 147–153. -/
structure Theme where
  background_color : String
  text_color : String
  grid_color : String
  line_colors_clones : String
  line_colors_views : String
  point_colors_clones : String
  point_colors_views : String
deriving DecidableEq, Repr

/-- The Python exceptions the modelled code can raise.  `fileNotFound`
models `FileNotFoundError`; every other constructor is caught by the
handler's generic `except Exception`. -/
inductive PyErr where
  | fileNotFound (msg : String)
  | typeError (msg : String)
  | valueError (msg : String)
  | keyError (msg : String)
  | fetchError (msg : String)
deriving DecidableEq, Repr

/-- chart_generator.py lines 10–30: look the theme name up in the bundled
theme files (modelled as an association list standing for the `themes`
directory); a missing file raises `FileNotFoundError` with the source's
message. -/
def load_theme (themes : List (String × Theme)) (theme_name : String) : Except PyErr Theme :=
  match themes.lookup theme_name with
  | some t => Except.ok t
  | none =>
    Except.error (PyErr.fileNotFound ("Theme " ++ apos ++ theme_name ++ apos ++ " not found."))

/-- Value of one hexadecimal digit. -/
def hexDigitVal (c : Char) : Option ℕ :=
  if c.val ≥ 48 ∧ c.val ≤ 57 then some (c.toNat - 48)
  else if c.val ≥ 97 ∧ c.val ≤ 102 then some (c.toNat - 87)
  else if c.val ≥ 65 ∧ c.val ≤ 70 then some (c.toNat - 55)
  else none

/-- Python `int(s, 16)` restricted to plain hex-digit strings (the only
shapes the source feeds it); anything else raises `ValueError`. -/
def hexNat (s : String) : Option ℕ :=
  if s = "" then none
  else
    s.data.foldl
      (fun acc c =>
        match acc, hexDigitVal c with
        | some a, some v => some (a * 16 + v)
        | _, _ => none)
      (some 0)

/-- chart_generator.py lines 164–184, one of the seven identical blocks: a
9-character color string `#RRGGBBAA` is split into `#RRGGBB` and an opacity
`int(AA, 16) / 255`; anything else keeps opacity 1. -/
def adjustColor (c : String) : Except PyErr (String × ℚ) :=
  if c.length = 9 then
    match hexNat (String.mk (c.data.drop 7)) with
    | some v => Except.ok (String.mk (c.data.take 7), (v : ℚ) / 255)
    | none => Except.error (PyErr.valueError "invalid literal for int() with base 16")
  else Except.ok (c, 1)

/-- One emitted SVG element, in the source's emission order, with the
attributes the source sets.  `extraOpacity` is the plain `opacity`
attribute the dashed gridlines also carry. -/
inductive SvgElem where
  | rect (x y w h rx ry : ℚ) (fill : String) (fillOpacity : ℚ)
  | text (content : String) (x y : ℚ) (anchor : Option String) (transform : Option String)
      (fill : String) (fillOpacity : ℚ) (style : String)
  | line (x1 y1 x2 y2 : ℚ) (stroke : String) (strokeOpacity : ℚ) (strokeWidth : Option ℚ)
      (dash : Option String) (extraOpacity : Option ℚ)
  | circle (cx cy r : ℚ) (fill : String) (fillOpacity : ℚ)
  | path (d : List PathCmd) (stroke : String) (strokeOpacity : ℚ) (strokeWidth : ℚ)
      (dashLen : ℚ) (animated : Bool)
deriving DecidableEq, Repr

/-- Python `max` over a list of counts; the source only evaluates it on
non-empty lists, for which folding from 0 agrees. -/
def listMax (l : List ℕ) : ℕ := l.foldl max 0

/-- The parameters of `generate_chart` (chart_generator.py lines 81–83), in
signature order.  There is no tick-count parameter. -/
structure GenChartArgs where
  profile_name : String
  traffic_results : List RepoTraffic
  theme_name : String
  height : ℤ
  width : ℤ
  radius : ℤ
  bg_color : Option String
  clones_color : Option String
  views_color : Option String
  clones_point_color : Option String
  views_point_color : Option String
  exclude_repos : Option String
deriving DecidableEq, Repr

/-- chart_generator.py lines 81–373 as a list of emitted SVG elements.
`themes` stands for the bundled theme files, `plen` for the pure numeric
arc-length routine `parse_path(...).length()` of `svgpathtools` (a fixed
function of the path description).  Notes kept from the source: line 194's
first `y_scale` assignment is dead (line 222 overwrites it before any use)
and is not repeated here; the y-tick labels print `str(int(y_value))`,
i.e. truncation, which for the non-negative tick values equals the floor
used below; the gridline `opacity=0.5` is the exact rational 1/2; the
coordinate arithmetic and the `calculate_y_ticks` call appear in their
exact-arithmetic reading (the claims proved about this builder —
determinism and tick-parameter independence — do not depend on how the
arithmetic rounds). -/
def generate_chart_elems (themes : List (String × Theme)) (plen : List PathCmd → ℚ)
    (a : GenChartArgs) : Except PyErr (List SvgElem) := do
  let exclude_repos_list := parseExcludeRepos a.exclude_repos
  let traffic_data := aggregateTraffic a.traffic_results exclude_repos_list
  let theme ← load_theme themes a.theme_name
  let sorted_dates := sortedKeys traffic_data
  let dates := sorted_dates.map (fun d => (pySplit '-' d).getLastD d)
  let clones := sorted_dates.map (fun d => clonesAt traffic_data d)
  let views := sorted_dates.map (fun d => viewsAt traffic_data d)
  let w : ℚ := (a.width : ℚ)
  let h : ℚ := (a.height : ℚ)
  let plot_width := w - 60 - 50
  let plot_height := h - 60 - 80
  let clones_color := match a.clones_color with
    | none => theme.line_colors_clones
    | some c => "#" ++ c
  let views_color := match a.views_color with
    | none => theme.line_colors_views
    | some c => "#" ++ c
  let clones_point_color := match a.clones_point_color with
    | none => theme.point_colors_clones
    | some c => "#" ++ c
  let views_point_color := match a.views_point_color with
    | none => theme.point_colors_views
    | some c => "#" ++ c
  let background_color := match a.bg_color with
    | some c => if c = "" then theme.background_color else "#" ++ c
    | none => theme.background_color
  let text_color := theme.text_color
  let grid_color := theme.grid_color
  let (background_color, background_color_opacity) ← adjustColor background_color
  let (clones_color, clones_color_opacity) ← adjustColor clones_color
  let (views_color, views_color_opacity) ← adjustColor views_color
  let (clones_point_color, clones_point_color_opacity) ← adjustColor clones_point_color
  let (views_point_color, views_point_color_opacity) ← adjustColor views_point_color
  let (text_color, text_color_opacity) ← adjustColor text_color
  let (grid_color, grid_color_opacity) ← adjustColor grid_color
  let bgRect := SvgElem.rect 0 0 w h (a.radius : ℚ) (a.radius : ℚ)
    background_color background_color_opacity
  let max_value : ℕ :=
    if clones.isEmpty || views.isEmpty then 0 else max (listMax clones) (listMax views)
  let x_step := if 1 < dates.length then plot_width / ((dates.length : ℚ) - 1) else plot_width
  let title := SvgElem.text (a.profile_name ++ apos ++ "s Repo Traffic Stats")
    (w / 2) (60 / 2) (some "middle") none text_color text_color_opacity
    "font-size: 20px; font-family: Arial"
  let xAxis := SvgElem.line 60 (h - 80) (w - 50) (h - 80) grid_color grid_color_opacity
    none none none
  let yAxis := SvgElem.line 60 60 60 (h - 80) grid_color grid_color_opacity none none none
  let ticksPair := calculate_y_ticks (max_value : ℚ) 5
  let nice_max := ticksPair.1
  let y_ticks := ticksPair.2
  let y_scale := if 0 < nice_max then plot_height / nice_max else 1
  let yTickElems := y_ticks.flatMap (fun yv =>
    let y_pos := h - 80 - yv * y_scale
    [SvgElem.line 60 y_pos (w - 50) y_pos grid_color grid_color_opacity (some 1)
        (some "5,5") (some (1 / 2)),
     SvgElem.text (toString ⌊yv⌋) (60 - 10) (y_pos + 5) (some "end") none
        text_color text_color_opacity "font-size: 12px; font-family: Arial"])
  let vertGrids := (List.range dates.length).map (fun i =>
    let x := 60 + (i : ℚ) * x_step
    SvgElem.line x 60 x (h - 80) grid_color grid_color_opacity (some 1)
      (some "5,5") (some (1 / 2)))
  let mkSeries := fun (dataset : List ℕ) (line_color : String) (line_opacity : ℚ)
      (point_color : String) (point_opacity : ℚ) =>
    let points := dataset.enum.map (fun iv =>
      (60 + (iv.1 : ℚ) * x_step, h - 80 - (iv.2 : ℚ) * y_scale))
    let path_data := smoothPathCmds points
    let path_length := plen path_data
    let circles := points.map (fun p => SvgElem.circle p.1 p.2 4 point_color point_opacity)
    circles ++ [SvgElem.path path_data line_color line_opacity 4 path_length true]
  let clonesElems := mkSeries clones clones_color clones_color_opacity
    clones_point_color clones_point_color_opacity
  let viewsElems := mkSeries views views_color views_color_opacity
    views_point_color views_point_color_opacity
  let dateLabels := dates.enum.map (fun idt =>
    let x := 60 + (idt.1 : ℚ) * x_step
    SvgElem.text idt.2 x (h - 80 + 20) none
      (some ("rotate(45, " ++ q2s x ++ ", " ++ q2s (h - 80 + 20) ++ ")"))
      text_color text_color_opacity "font-size: 12px; font-family: Arial")
  let daysTitle := SvgElem.text "Days" (w / 2) (h - 80 / 3) (some "middle") none
    text_color text_color_opacity "font-size: 14px; font-family: Arial"
  let countTitle := SvgElem.text "Count" (60 / 3) (h / 2) (some "middle")
    (some ("rotate(-90, " ++ q2s (60 / 3) ++ ", " ++ q2s (h / 2) ++ ")"))
    text_color text_color_opacity "font-size: 14px; font-family: Arial"
  let legend_y := h - 80 / 3 + 15
  let legendElems := [
    SvgElem.line (w / 2 - 60) legend_y (w / 2 - 40) legend_y clones_color
      clones_color_opacity (some 3) none none,
    SvgElem.text "Clones" (w / 2 - 30) (legend_y + 5) none none text_color
      text_color_opacity "font-size: 12px; font-family: Arial",
    SvgElem.line (w / 2 + 40) legend_y (w / 2 + 60) legend_y views_color
      views_color_opacity (some 3) none none,
    SvgElem.text "Views" (w / 2 + 70) (legend_y + 5) none none text_color
      text_color_opacity "font-size: 12px; font-family: Arial"]
  return [bgRect, title, xAxis, yAxis] ++ yTickElems ++ vertGrids ++ clonesElems
    ++ viewsElems ++ dateLabels ++ [daysTitle, countTitle] ++ legendElems

/-- Deterministic rendering of one element; stands for `svgwrite`'s fixed
serialization. -/
def elemToString : SvgElem → String
  | SvgElem.rect x y w h rx ry fill fo =>
    "<rect " ++ pt2s (x, y) ++ " " ++ pt2s (w, h) ++ " " ++ pt2s (rx, ry) ++ " "
      ++ fill ++ " " ++ q2s fo ++ "/>"
  | SvgElem.text content x y anchor transform fill fo style =>
    "<text " ++ pt2s (x, y) ++ " " ++ (anchor.getD "-") ++ " " ++ (transform.getD "-")
      ++ " " ++ fill ++ " " ++ q2s fo ++ " " ++ style ++ ">" ++ content ++ "</text>"
  | SvgElem.line x1 y1 x2 y2 stroke so sw dash eo =>
    "<line " ++ pt2s (x1, y1) ++ " " ++ pt2s (x2, y2) ++ " " ++ stroke ++ " " ++ q2s so
      ++ " " ++ ((sw.map q2s).getD "-") ++ " " ++ (dash.getD "-")
      ++ " " ++ ((eo.map q2s).getD "-") ++ "/>"
  | SvgElem.circle cx cy r fill fo =>
    "<circle " ++ pt2s (cx, cy) ++ " " ++ q2s r ++ " " ++ fill ++ " " ++ q2s fo ++ "/>"
  | SvgElem.path d stroke so sw dashLen animated =>
    "<path " ++ String.join (d.map pathCmdStr) ++ " " ++ stroke ++ " " ++ q2s so ++ " "
      ++ q2s sw ++ " " ++ q2s dashLen ++ " " ++ (if animated then "anim" else "-") ++ "/>"

/-- Deterministic rendering of the whole drawing (`dwg.tostring()`). -/
def svgToString (w h : ℚ) (els : List SvgElem) : String :=
  "<svg " ++ pt2s (w, h) ++ ">" ++ String.join (els.map elemToString) ++ "</svg>"

/-- The function `generate_chart` at the string level: the element list rendered to the
SVG document string the source returns (line 373). -/
def generate_chart (themes : List (String × Theme)) (plen : List PathCmd → ℚ)
    (a : GenChartArgs) : Except PyErr String :=
  (generate_chart_elems themes plen a).map
    (fun els => svgToString (a.width : ℚ) (a.height : ℚ) els)

/-- An ambient environment carrying a clock reading and an entropy source.
The body of `generate_chart` contains no call that consults either (its
imports are math/os/json/svgwrite/svgpathtools and it reads only its
arguments and the theme store), so the embedded function ignores this
parameter — which the determinism claim then states. -/
structure RenderEnv where
  clock : ℕ
  entropy : ℕ
deriving DecidableEq, Repr

/-- The function `generate_chart` run in an ambient environment: the environment is not
consulted, faithfully to the source body. -/
def generate_chart_in_env (_env : RenderEnv) (themes : List (String × Theme))
    (plen : List PathCmd → ℚ) (a : GenChartArgs) : Except PyErr String :=
  generate_chart themes plen a

/-- The `chart_params` dict built by main.py lines 92–106, with its exact
keys (including `theme` and `ticks`). -/
structure ChartParams where
  profile_name : String
  traffic_results : List RepoTraffic
  theme : String
  height : ℤ
  width : ℤ
  radius : ℤ
  ticks : ℤ
  bg_color : Option String
  clones_color : Option String
  views_color : Option String
  clones_point_color : Option String
  views_point_color : Option String
  exclude_repos : Option String
deriving DecidableEq, Repr

/-- The keyword names of `chart_params`, in the insertion order of
main.py lines 92–106. -/
def chart_params_keys : List String :=
  ["profile_name", "traffic_results", "theme", "height", "width", "radius", "ticks",
   "bg_color", "clones_color", "views_color", "clones_point_color", "views_point_color",
   "exclude_repos"]

/-- The parameter names of `generate_chart`'s signature
(chart_generator.py lines 81–83), in order.  Note `theme_name`, not
`theme`, and no `ticks`. -/
def generate_chart_param_names : List String :=
  ["profile_name", "traffic_results", "theme_name", "height", "width", "radius",
   "bg_color", "clones_color", "views_color", "clones_point_color", "views_point_color",
   "exclude_repos"]

/-- The parameters of `generate_chart` without a default value. -/
def generate_chart_required_names : List String :=
  ["profile_name", "traffic_results", "theme_name", "height", "width", "radius"]

/-- The argument record `generate_chart` would receive from the endpoint's
values: the request-side fields paired with the signature's parameters.
The `ticks` field of `ChartParams` has no counterpart in the signature and
is dropped. -/
def chart_args_of_request (p : ChartParams) : GenChartArgs :=
  { profile_name := p.profile_name, traffic_results := p.traffic_results,
    theme_name := p.theme, height := p.height, width := p.width, radius := p.radius,
    bg_color := p.bg_color, clones_color := p.clones_color, views_color := p.views_color,
    clones_point_color := p.clones_point_color, views_point_color := p.views_point_color,
    exclude_repos := p.exclude_repos }

/-- main.py lines 109/110: the call `generate_chart(**chart_params)` under
Python keyword-binding semantics.  CPython first rejects any provided
keyword that is not a parameter name (raising `TypeError`), then any
missing required parameter.  For the source's literal keyword sets the
first check already fires on `theme`, so the final branch is unreachable;
it is kept for totality with the binding the names would induce. -/
def callGenerateChartKwargs (themes : List (String × Theme)) (plen : List PathCmd → ℚ)
    (p : ChartParams) : Except PyErr String :=
  match chart_params_keys.find? (fun k => !generate_chart_param_names.contains k) with
  | some k =>
    Except.error (PyErr.typeError
      ("generate_chart() got an unexpected keyword argument " ++ apos ++ k ++ apos))
  | none =>
    match generate_chart_required_names.find? (fun k => !chart_params_keys.contains k) with
    | some k =>
      Except.error (PyErr.typeError
        ("generate_chart() missing required argument " ++ apos ++ k ++ apos))
    | none => generate_chart themes plen (chart_args_of_request p)

/-- The query parameters of `GET /api` (main.py lines 40–52). -/
structure ApiRequest where
  username : String
  theme : String
  bg_color : Option String
  clones_color : Option String
  views_color : Option String
  clones_point_color : Option String
  views_point_color : Option String
  radius : ℤ
  height : ℤ
  width : ℤ
  exclude_repos : Option String
  ticks : ℤ
deriving DecidableEq, Repr

/-- Python f-string interpolation of an optional query value: `None` prints
as the four characters `None`. -/
def optStr : Option String → String
  | none => "None"
  | some s => s

/-- main.py line 76: the chart cache key. -/
def mkChartCacheKey (r : ApiRequest) : String :=
  r.username ++ "_" ++ r.theme ++ "_" ++ optStr r.bg_color ++ "_" ++ optStr r.clones_color
    ++ "_" ++ optStr r.views_color ++ "_" ++ optStr r.clones_point_color ++ "_"
    ++ optStr r.views_point_color ++ "_" ++ toString r.radius ++ "_" ++ toString r.height
    ++ "_" ++ toString r.width ++ "_" ++ optStr r.exclude_repos ++ "_" ++ toString r.ticks

/-- A value stored in the module-level `cache` dict of main.py: either the
traffic-results list or the profile name (the dict is untyped in Python). -/
inductive CacheVal where
  | traffic (t : List RepoTraffic)
  | profile (s : String)
deriving DecidableEq, Repr

/-- The module-level mutable state of main.py: `cache` (line 14),
`chart_cache` (line 15), `task_last_called` (line 16) as insertion-ordered
association lists, and the ids of the jobs registered with the scheduler.
The two `TTLCache`s are created with an infinite TTL; their
maxsize-10 eviction is not modelled — no theorem below involves a state
holding more than a few entries. -/
structure AppState where
  cache : List (String × CacheVal)
  chart_cache : List (String × String)
  task_last_called : List (String × ℕ)
  jobs : List String
deriving DecidableEq, Repr

/-- Dict write `m[k] = v`: update in place when present, append when
absent, as a Python dict does. -/
def setKey {α : Type} (m : List (String × α)) (k : String) (v : α) : List (String × α) :=
  match m with
  | [] => [(k, v)]
  | (k1, v1) :: rest => if k1 = k then (k1, v) :: rest else (k1, v1) :: setKey rest k v

/-- Dict deletion `del m[k]`. -/
def eraseKey {α : Type} (m : List (String × α)) (k : String) : List (String × α) :=
  match m with
  | [] => []
  | (k1, v1) :: rest => if k1 = k then rest else (k1, v1) :: eraseKey rest k

/-- Dict membership `k in m`. -/
def containsKey {α : Type} (m : List (String × α)) (k : String) : Bool :=
  (m.lookup k).isSome

/-- main.py lines 152–159: fetch the traffic results and the profile name,
then write both cache entries.  The fetch collaborators are explicit
parameters (they are `async` network functions in the source; the source in
fact stores the coroutine objects without awaiting them — a slip noted
here, which does not change any verdict below because the later
`generate_chart(**chart_params)` call fails on its keyword names before any
argument value is consumed). -/
def generate_new_data (fetchT : String → Except PyErr (List RepoTraffic))
    (fetchP : Unit → Except PyErr String)
    (username traffic_results_key profile_name_key : String) (st : AppState) :
    Option PyErr × AppState :=
  match fetchT username with
  | Except.error e => (some e, st)
  | Except.ok traffic_results =>
    match fetchP () with
    | Except.error e => (some e, st)
    | Except.ok profile_name =>
      let cache1 := setKey st.cache traffic_results_key (CacheVal.traffic traffic_results)
      let cache2 := setKey cache1 profile_name_key (CacheVal.profile profile_name)
      (none, { st with cache := cache2 })

/-- Model of `scheduler.add_job(..., id=jobId, replace_existing=True)`: record the
job id. -/
def addJob (st : AppState) (jobId : String) : AppState :=
  { st with jobs := if st.jobs.contains jobId then st.jobs else st.jobs ++ [jobId] }

/-- What the endpoint sends back: the HTTP status, the body (the SVG string
on success, the exception detail on error), and the media type and headers
of main.py lines 115–125. -/
structure HandlerResult where
  status : ℕ
  body : String
  mediaType : Option String
  contentTypeHeader : Option String
  cacheControlHeader : Option String
deriving DecidableEq, Repr

/-- main.py lines 127–132: `except FileNotFoundError` becomes a 404 with
the exception text as detail; every other exception becomes a 500. -/
def exceptToResp : PyErr → HandlerResult
  | PyErr.fileNotFound m => ⟨404, m, none, none, none⟩
  | PyErr.typeError m => ⟨500, m, none, none, none⟩
  | PyErr.valueError m => ⟨500, m, none, none, none⟩
  | PyErr.keyError m => ⟨500, m, none, none, none⟩
  | PyErr.fetchError m => ⟨500, m, none, none, none⟩

/-- main.py lines 39–132, the `/api` handler: derive the cache keys; when
both data keys are absent, populate via `generate_new_data` and register
the per-username refresh job; when the chart key is absent, build
`chart_params` and call `generate_chart(**chart_params)`, caching the
result and registering the per-chart-key refresh job on success; finally
read the cached chart, stamp `task_last_called`, and answer 200 with the
SVG headers.  Any exception is mapped by `exceptToResp`; mutations made
before the exception persist, as they do for the module-level dicts. -/
def get_traffic_chart (themes : List (String × Theme)) (plen : List PathCmd → ℚ)
    (fetchT : String → Except PyErr (List RepoTraffic))
    (fetchP : Unit → Except PyErr String) (now : ℕ) (st : AppState) (r : ApiRequest) :
    HandlerResult × AppState :=
  let chart_cache_key := mkChartCacheKey r
  let traffic_results_key := "traffic_data_" ++ r.username
  let profile_name_key := "profile_name_" ++ r.username
  let popStep : Option PyErr × AppState :=
    if !containsKey st.cache traffic_results_key && !containsKey st.cache profile_name_key then
      match generate_new_data fetchT fetchP r.username traffic_results_key
          profile_name_key st with
      | (none, st1) => (none, addJob st1 r.username)
      | (some e, st1) => (some e, st1)
    else (none, st)
  match popStep with
  | (some e, st1) => (exceptToResp e, st1)
  | (none, st1) =>
    let chartStep : Option PyErr × AppState :=
      if !containsKey st1.chart_cache chart_cache_key then
        match st1.cache.lookup traffic_results_key, st1.cache.lookup profile_name_key with
        | some (CacheVal.traffic traffic_results), some (CacheVal.profile profile_name) =>
          let p : ChartParams :=
            { profile_name := profile_name, traffic_results := traffic_results,
              theme := r.theme, height := r.height, width := r.width, radius := r.radius,
              ticks := r.ticks, bg_color := r.bg_color, clones_color := r.clones_color,
              views_color := r.views_color, clones_point_color := r.clones_point_color,
              views_point_color := r.views_point_color, exclude_repos := r.exclude_repos }
          match callGenerateChartKwargs themes plen p with
          | Except.ok svg =>
            (none, addJob { st1 with
              chart_cache := setKey st1.chart_cache chart_cache_key svg } chart_cache_key)
          | Except.error e => (some e, st1)
        | _, _ => (some (PyErr.keyError traffic_results_key), st1)
      else (none, st1)
    match chartStep with
    | (some e, st2) => (exceptToResp e, st2)
    | (none, st2) =>
      match st2.chart_cache.lookup chart_cache_key with
      | some chart_svg =>
        ({ status := 200, body := chart_svg, mediaType := some "image/svg+xml",
           contentTypeHeader := some "image/svg+xml; charset=utf-8",
           cacheControlHeader :=
             some "public, max-age=1800, s-maxage=3600, stale-while-revalidate=86400" },
         { st2 with task_last_called := setKey st2.task_last_called chart_cache_key now })
      | none => (exceptToResp (PyErr.keyError chart_cache_key), st2)

/-- Python `timedelta(days=2)` in seconds; timestamps are modelled in seconds. -/
def twoDaysSecs : ℕ := 172800

/-- The message of the `RuntimeError` CPython raises when a dict is resized
while one of its iterators is advanced. -/
def dictChangedMsg : String := "RuntimeError: dictionary changed size during iteration"

/-- main.py lines 134–149 with CPython's dict-iteration semantics: the loop
iterates `task_last_called.items()` in insertion order; each stale key has
its job removed (a missing job id would raise `JobLookupError`), its
last-access record deleted, and — when present — its chart cache entry
deleted.  CPython's dict iterator compares the dict's size against the size
at iterator creation on every `next()` call, so the first deletion makes
the next loop step raise `RuntimeError`; the `mutated` flag models this.
The function returns the raised exception (if any) together with the state
reached, since the module-level dicts keep the mutations made before the
exception. -/
def sweepGo (now : ℕ) : List (String × ℕ) → AppState → Bool → Option String × AppState
  | [], st, mutated => (if mutated then some dictChangedMsg else none, st)
  | (k, last_called) :: rest, st, mutated =>
    if mutated then (some dictChangedMsg, st)
    else if twoDaysSecs < now - last_called then
      if st.jobs.contains k then
        sweepGo now rest
          { st with jobs := st.jobs.erase k,
                    task_last_called := eraseKey st.task_last_called k,
                    chart_cache :=
                      if containsKey st.chart_cache k then eraseKey st.chart_cache k
                      else st.chart_cache }
          true
      else (some ("JobLookupError: " ++ k), st)
    else sweepGo now rest st false

/-- main.py lines 134–149: the idle sweep, started from the tracked
last-access records. -/
def check_and_remove_task (now : ℕ) (st : AppState) : Option String × AppState :=
  sweepGo now st.task_last_called st false

/-- The phase of one request thread inside the cache-population path of the
handler (main.py lines 83–86): about to evaluate the miss check, about to
perform the upstream fetch, about to write the cache, or finished. -/
inductive ReqPhase where
  | start
  | fetching
  | storing
  | done
deriving DecidableEq, BEq, Repr

/-- Shared state of the interleaving machine for one cache key: whether the
two cache entries for the key have been written, how many upstream fetches
have been performed, and each thread's phase. -/
structure ConcState where
  cachePopulated : Bool
  fetchCount : ℕ
  threads : List ReqPhase
deriving DecidableEq, Repr

/-- Replace thread `i`'s phase. -/
def setPhase (s : ConcState) (i : ℕ) (ph : ReqPhase) : ConcState :=
  { s with threads := s.threads.set i ph }

/-- One atomic step of thread `i`, following main.py lines 83–86.  `start`:
evaluate the miss check (line 83) — the source acquires no lock and
re-checks nothing, so a miss moves straight to the fetch.  `fetching`:
perform the upstream fetch inside `generate_new_data`; per spec section 5
this awaits network I/O, so other threads may run before and after it.
`storing`: write both cache entries (lines 158–159).  A hit at the check,
or a finished thread, takes no further population step. -/
def stepThread (s : ConcState) (i : ℕ) : ConcState :=
  match s.threads.get? i with
  | none => s
  | some ReqPhase.start =>
    if s.cachePopulated then setPhase s i ReqPhase.done else setPhase s i ReqPhase.fetching
  | some ReqPhase.fetching => { setPhase s i ReqPhase.storing with fetchCount := s.fetchCount + 1 }
  | some ReqPhase.storing => { setPhase s i ReqPhase.done with cachePopulated := true }
  | some ReqPhase.done => s

/-- Run a schedule: at each point the named thread takes one step. -/
def runSched (sched : List ℕ) (s : ConcState) : ConcState :=
  sched.foldl stepThread s

/-- All of `n` simultaneous first-requests for the same uncached key. -/
def initConc (n : ℕ) : ConcState := ⟨false, 0, List.replicate n ReqPhase.start⟩

/-- All requests have finished the population path. -/
def allDone (s : ConcState) : Bool := s.threads.all (fun ph => ph == ReqPhase.done)

/-- The fully serialized schedule: each thread runs its (at most) three
steps to completion before the next thread starts. -/
def serialSched (n : ℕ) : List ℕ := (List.range n).flatMap (fun i => [i, i, i])

/-- A bundled theme standing for `themes/default.json`. -/
def defaultTheme : Theme :=
  ⟨"#20232a", "#fafafa", "#444444", "#ffb86c", "#8be9fd", "#ffb86c", "#8be9fd"⟩

/-- A theme store holding only the default theme. -/
def themesFixture : List (String × Theme) := [("default", defaultTheme)]

/-- One repository with one clones point and one views point. -/
def sampleTraffic : List RepoTraffic :=
  [⟨"r1", [⟨"2024-01-01T00:00:00Z", 3⟩], [⟨"2024-01-01T00:00:00Z", 5⟩]⟩]

/-- A fetch collaborator that succeeds with `sampleTraffic`. -/
def fetchTrafficOk : String → Except PyErr (List RepoTraffic) :=
  fun _ => Except.ok sampleTraffic

/-- A profile-name collaborator that succeeds. -/
def fetchProfileOk : Unit → Except PyErr String := fun _ => Except.ok "Alice"

/-- A concrete stand-in for the arc-length routine. -/
def zeroLen : List PathCmd → ℚ := fun _ => 0

/-- The state at process start: all caches and job registries empty. -/
def emptyState : AppState := ⟨[], [], [], []⟩

/-- A default-parameter request for user `alice` and the bundled theme. -/
def sampleRequest : ApiRequest :=
  ⟨"alice", "default", none, none, none, none, none, 20, 400, 800, none, 5⟩

/-- The same request naming a theme that has no theme file. -/
def missingThemeRequest : ApiRequest :=
  ⟨"alice", "midnight", none, none, none, none, none, 20, 400, 800, none, 5⟩

/-- The detail text of the `TypeError` the chart call raises. -/
def unexpectedThemeMsg : String :=
  "generate_chart() got an unexpected keyword argument " ++ apos ++ "theme" ++ apos

/-- A sweep state with two tracked chart keys, both with jobs, chart cache
entries, and last-access timestamp 0. -/
def staleSweepState : AppState :=
  ⟨[], [("a", "svg-a"), ("b", "svg-b")], [("a", 0), ("b", 0)], ["a", "b"]⟩

/-- The theme-not-found error for the theme name `midnight`. -/
def midnightNotFound : PyErr :=
  PyErr.fileNotFound ("Theme " ++ apos ++ "midnight" ++ apos ++ " not found.")

/-- The `chart_params` record the handler would build for
`missingThemeRequest` after a successful fetch. -/
def missingThemeParams : ChartParams :=
  ⟨"Alice", sampleTraffic, "midnight", 400, 800, 20, 5, none, none, none, none, none, none⟩

/-- The segments of `smoothSegs` are exactly the Bézier segments of the
consecutive pairs of the point list. -/
theorem smoothSegs_zip (p0 : ℚ × ℚ) (ps : List (ℚ × ℚ)) :
    smoothSegs p0 ps = ((p0 :: ps).zip ps).map bezierSeg := by
  induction ps generalizing p0 with
  | nil => rfl
  | cons p1 rest ih => simp [smoothSegs, ih]

/-- C7: the smooth-path builder returns the empty string on the empty
sequence; a single point gives only a move-to command; for more points the
move-to is followed by one cubic segment per consecutive pair, with the
first control point at `(x0 + (x1 - x0)/3, y0)`, the second at
`(x1 - (x1 - x0)/3, y1)`, ending at `(x1, y1)`. -/
theorem c7_smooth_path_structure (p0 : ℚ × ℚ) (ps : List (ℚ × ℚ)) :
    create_smooth_path [] = ""
    ∧ smoothPathCmds [p0] = [PathCmd.move p0]
    ∧ smoothPathCmds (p0 :: ps) = PathCmd.move p0 :: ((p0 :: ps).zip ps).map bezierSeg
    ∧ (∀ a b : ℚ × ℚ, bezierSeg (a, b)
        = PathCmd.cubic (a.1 + (b.1 - a.1) / 3, a.2) (b.1 - (b.1 - a.1) / 3, b.2) b) :=
  ⟨rfl, rfl, by simp [smoothPathCmds, smoothSegs_zip], fun _ _ => rfl⟩

/-- C9 counterexample: for the query string `a, b` the source's exclusion
list keeps the leading space of the second name, so it differs from the
claimed split-trim-drop parsing. -/
theorem c9_split_trim_drop_refuted :
    parseExcludeRepos (some "a, b") = ["a", " b"]
    ∧ parseExcludeReposSpec "a, b" = ["a", "b"]
    ∧ parseExcludeRepos (some "a, b") ≠ parseExcludeReposSpec "a, b" := by
  refine ⟨by decide, by decide, by decide⟩

/-- C9 amended: the exclusion list is empty for an absent or empty
parameter; a nonempty comma-free string gives the one-element list of the
bare string; a string containing a comma is split on commas with no
trimming and no dropping of empty parts. -/
theorem c9_exclusion_parsing_amended (s : String) :
    parseExcludeRepos none = []
    ∧ parseExcludeRepos (some "") = []
    ∧ (s ≠ "" → pyContainsChar s ',' = false → parseExcludeRepos (some s) = [s])
    ∧ (pyContainsChar s ',' = true → parseExcludeRepos (some s) = pySplit ',' s) := by
  refine ⟨rfl, by decide, ?_, ?_⟩
  · intro h1 h2
    simp [parseExcludeRepos, h1, h2]
  · intro h2
    by_cases h1 : s = ""
    · subst h1
      exact absurd h2 (by decide)
    · simp [parseExcludeRepos, h1, h2]

/-- Witness for the amended C9 statement at concrete inputs. -/
theorem c9_exclusion_parsing_witness :
    parseExcludeRepos (some "abc") = ["abc"]
    ∧ parseExcludeRepos (some "x,y") = pySplit ',' "x,y" :=
  ⟨(c9_exclusion_parsing_amended "abc").2.2.1 (by decide) (by decide),
   (c9_exclusion_parsing_amended "x,y").2.2.2 (by decide)⟩

/-- C6: chart generation is a pure function of its arguments: the ambient
environment (clock, entropy) never influences the produced SVG string, so
two runs on identical inputs are byte-identical. -/
theorem c6_rendering_deterministic (e1 e2 : RenderEnv) (themes : List (String × Theme))
    (plen : List PathCmd → ℚ) (a : GenChartArgs) :
    generate_chart_in_env e1 themes plen a = generate_chart_in_env e2 themes plen a := rfl

/-- C10: the rendered chart is independent of the requested tick count —
`generate_chart` has no parameter that could carry it (the `ticks` keyword
is not among its parameter names, though the endpoint builds it into
`chart_params`), so two generations differing only in the `ticks` field
produce identical results, both at the generation level and at the
keyword-call level. -/
theorem c10_ticks_request_parameter_inert (p : ChartParams) (t1 t2 : ℤ)
    (themes : List (String × Theme)) (plen : List PathCmd → ℚ) :
    generate_chart themes plen (chart_args_of_request { p with ticks := t1 })
      = generate_chart themes plen (chart_args_of_request { p with ticks := t2 })
    ∧ callGenerateChartKwargs themes plen { p with ticks := t1 }
      = callGenerateChartKwargs themes plen { p with ticks := t2 }
    ∧ generate_chart_param_names.contains "ticks" = false
    ∧ chart_params_keys.contains "ticks" = true :=
  ⟨rfl, rfl, by decide, by decide⟩

/-- C1 (failing-input evaluation): a request whose upstream fetches succeed
and whose theme exists is answered with status 500 and no SVG — the
`generate_chart(**chart_params)` call raises `TypeError` on the keyword
`theme` (the signature's parameter is `theme_name`, and there is no `ticks`
parameter), and the generic exception handler maps it to 500. -/
theorem c1_success_path_returns_500_not_200 :
    (get_traffic_chart themesFixture zeroLen fetchTrafficOk fetchProfileOk 1000
        emptyState sampleRequest).1
      = ⟨500, unexpectedThemeMsg, none, none, none⟩ := by decide

/-- C8 (failing-input evaluation): a request naming a theme with no theme
file is also answered 500, not 404 — the keyword `TypeError` fires before
`load_theme` ever runs.  The intended mechanism does exist one level down:
calling `generate_chart` itself (per its own signature) with the unknown
theme fails with the `FileNotFoundError` the claim describes. -/
theorem c8_missing_theme_returns_500_not_404 :
    (get_traffic_chart themesFixture zeroLen fetchTrafficOk fetchProfileOk 1000
        emptyState missingThemeRequest).1
      = ⟨500, unexpectedThemeMsg, none, none, none⟩
    ∧ load_theme themesFixture "midnight" = Except.error midnightNotFound
    ∧ generate_chart_elems themesFixture zeroLen (chart_args_of_request missingThemeParams)
      = Except.error midnightNotFound :=
  ⟨by decide, rfl, rfl⟩

/-- C2 (failing-input evaluation): with two stale tracked keys the sweep
removes the first key's job, record and cache entry, then raises
`RuntimeError` at the next iteration step because the dict changed size —
the second stale key keeps its job and its chart cache entry. -/
theorem c2_idle_sweep_crash_keeps_stale_key :
    check_and_remove_task 200000 staleSweepState
      = (some dictChangedMsg, ⟨[], [("b", "svg-b")], [("b", 0)], ["b"]⟩) := by decide

/-- C3 counterexample: two simultaneous first-requests for the same
uncached key, interleaved at the fetch suspension point, both observe the
miss and both perform the upstream fetch — the run completes with two
fetch calls, not one, since the source's miss path takes no lock and
re-checks nothing. -/
theorem c3_interleaved_misses_fetch_twice :
    allDone (runSched [0, 1, 0, 1, 0, 1] (initConc 2)) = true
    ∧ (runSched [0, 1, 0, 1, 0, 1] (initConc 2)).fetchCount = 2 := by decide

/-- Indexing past a block of finished threads reads the tail. -/
theorem repl_append_get (p : ℕ) (l : List ReqPhase) :
    (List.replicate p ReqPhase.done ++ l).get? p = l.get? 0 := by
  induction p with
  | zero => simp
  | succ n ih =>
    simp only [List.replicate_succ, List.cons_append, List.get?_cons_succ]
    exact ih

/-- Writing past a block of finished threads writes into the tail. -/
theorem repl_append_set (p : ℕ) (l : List ReqPhase) (v : ReqPhase) :
    (List.replicate p ReqPhase.done ++ l).set p v
      = List.replicate p ReqPhase.done ++ l.set 0 v := by
  induction p with
  | zero => simp
  | succ n ih =>
    simp only [List.replicate_succ, List.cons_append, List.set_cons_succ]
    rw [ih]

/-- Once the cache is populated, a thread still at its miss check finishes
without fetching, and its two remaining scheduled steps are no-ops. -/
theorem serial_triple_step (p fc : ℕ) (tail : List ReqPhase) :
    runSched [p, p, p]
        ⟨true, fc, List.replicate p ReqPhase.done ++ ReqPhase.start :: tail⟩
      = ⟨true, fc, List.replicate p ReqPhase.done ++ ReqPhase.done :: tail⟩ := by
  have hg1 : (List.replicate p ReqPhase.done ++ ReqPhase.start :: tail).get? p
      = some ReqPhase.start := by rw [repl_append_get]; rfl
  have hg2 : (List.replicate p ReqPhase.done ++ ReqPhase.done :: tail).get? p
      = some ReqPhase.done := by rw [repl_append_get]; rfl
  have hset : (List.replicate p ReqPhase.done ++ ReqPhase.start :: tail).set p ReqPhase.done
      = List.replicate p ReqPhase.done ++ ReqPhase.done :: tail := by
    rw [repl_append_set]; rfl
  have h1 : stepThread ⟨true, fc, List.replicate p ReqPhase.done ++ ReqPhase.start :: tail⟩ p
      = ⟨true, fc, List.replicate p ReqPhase.done ++ ReqPhase.done :: tail⟩ := by
    unfold stepThread
    rw [show (⟨true, fc, List.replicate p ReqPhase.done ++ ReqPhase.start :: tail⟩
        : ConcState).threads.get? p = some ReqPhase.start from hg1]
    simp [setPhase, hset]
  have h2 : stepThread ⟨true, fc, List.replicate p ReqPhase.done ++ ReqPhase.done :: tail⟩ p
      = ⟨true, fc, List.replicate p ReqPhase.done ++ ReqPhase.done :: tail⟩ := by
    unfold stepThread
    rw [show (⟨true, fc, List.replicate p ReqPhase.done ++ ReqPhase.done :: tail⟩
        : ConcState).threads.get? p = some ReqPhase.done from hg2]
  show stepThread (stepThread (stepThread _ p) p) p = _
  rw [h1, h2, h2]

/-- Serial completion of the remaining threads: starting from a populated
cache with `p` finished threads and `q` waiting ones, running the waiting
threads one at a time finishes them all without any further fetch. -/
theorem runSerial_fromPopulated (q : ℕ) : ∀ p fc : ℕ,
    runSched ((List.range' p q).flatMap (fun i => [i, i, i]))
        ⟨true, fc, List.replicate p ReqPhase.done ++ List.replicate q ReqPhase.start⟩
      = ⟨true, fc, List.replicate (p + q) ReqPhase.done⟩ := by
  induction q with
  | zero => intro p fc; simp [runSched]
  | succ n ih =>
    intro p fc
    rw [List.range'_succ, List.flatMap_cons]
    have hsplit : runSched ([p, p, p] ++ (List.range' (p + 1) n).flatMap (fun i => [i, i, i]))
        ⟨true, fc, List.replicate p ReqPhase.done ++ List.replicate (n + 1) ReqPhase.start⟩
        = runSched ((List.range' (p + 1) n).flatMap (fun i => [i, i, i]))
            (runSched [p, p, p]
              ⟨true, fc, List.replicate p ReqPhase.done ++ List.replicate (n + 1) ReqPhase.start⟩) := by
      simp [runSched, List.foldl_append]
    rw [hsplit]
    rw [show List.replicate (n + 1) ReqPhase.start = ReqPhase.start :: List.replicate n ReqPhase.start
      from List.replicate_succ _ _]
    rw [serial_triple_step]
    have hshape : List.replicate p ReqPhase.done ++ ReqPhase.done :: List.replicate n ReqPhase.start
        = List.replicate (p + 1) ReqPhase.done ++ List.replicate n ReqPhase.start := by
      rw [List.replicate_succ', List.append_assoc]
      rfl
    rw [hshape, ih (p + 1) fc]
    have : p + 1 + n = p + (n + 1) := by omega
    rw [this]

/-- Every finished-thread list passes `allDone`. -/
theorem allDone_replicate (b : Bool) (fc k : ℕ) :
    allDone ⟨b, fc, List.replicate k ReqPhase.done⟩ = true := by
  simp only [allDone, List.all_eq_true]
  intro ph hph
  rw [List.eq_of_mem_replicate hph]
  rfl

/-- C3 amended: the miss path takes no lock and performs no re-check after
one, so interleaved misses can fetch repeatedly; what does hold is that
when the simultaneous first-requests are executed serially (one completing
before the next starts, as on a single cooperative event loop), exactly one
upstream fetch is performed — the later requests observe the populated
cache at their miss check. -/
theorem c3_serialized_misses_fetch_once (m : ℕ) :
    (runSched (serialSched (m + 1)) (initConc (m + 1))).fetchCount = 1
    ∧ allDone (runSched (serialSched (m + 1)) (initConc (m + 1))) = true := by
  have hfirst : runSched [0, 0, 0] (initConc (m + 1))
      = ⟨true, 1, ReqPhase.done :: List.replicate m ReqPhase.start⟩ := by
    have s1 : stepThread (initConc (m + 1)) 0
        = ⟨false, 0, ReqPhase.fetching :: List.replicate m ReqPhase.start⟩ := by
      simp [initConc, stepThread, List.replicate_succ, setPhase]
    have s2 : stepThread ⟨false, 0, ReqPhase.fetching :: List.replicate m ReqPhase.start⟩ 0
        = ⟨false, 1, ReqPhase.storing :: List.replicate m ReqPhase.start⟩ := by
      simp [stepThread, setPhase]
    have s3 : stepThread ⟨false, 1, ReqPhase.storing :: List.replicate m ReqPhase.start⟩ 0
        = ⟨true, 1, ReqPhase.done :: List.replicate m ReqPhase.start⟩ := by
      simp [stepThread, setPhase]
    show stepThread (stepThread (stepThread (initConc (m + 1)) 0) 0) 0
      = ⟨true, 1, ReqPhase.done :: List.replicate m ReqPhase.start⟩
    rw [s1, s2, s3]
  have hsched : serialSched (m + 1)
      = [0, 0, 0] ++ (List.range' 1 m).flatMap (fun i => [i, i, i]) := by
    rw [serialSched, List.range_eq_range', List.range'_succ, List.flatMap_cons]
  have hsplit : runSched (serialSched (m + 1)) (initConc (m + 1))
      = runSched ((List.range' 1 m).flatMap (fun i => [i, i, i]))
          (runSched [0, 0, 0] (initConc (m + 1))) := by
    rw [hsched]; simp [runSched, List.foldl_append]
  have hdone : ReqPhase.done :: List.replicate m ReqPhase.start
      = List.replicate 1 ReqPhase.done ++ List.replicate m ReqPhase.start := rfl
  rw [hsplit, hfirst, hdone, runSerial_fromPopulated m 1 1]
  exact ⟨rfl, allDone_replicate true 1 (1 + m)⟩

/-- Bucket reading under a cons cell of the daily-series list. -/
theorem clonesAt_cons (k1 : String) (v : Bucket) (rest : List (String × Bucket)) (j : String) :
    clonesAt ((k1, v) :: rest) j = if k1 = j then v.clones else clonesAt rest j := by
  by_cases h : k1 = j <;> simp [clonesAt, alookup, h]

/-- Bucket reading under a cons cell, views side. -/
theorem viewsAt_cons (k1 : String) (v : Bucket) (rest : List (String × Bucket)) (j : String) :
    viewsAt ((k1, v) :: rest) j = if k1 = j then v.views else viewsAt rest j := by
  by_cases h : k1 = j <;> simp [viewsAt, alookup, h]

/-- Presence under a cons cell. -/
theorem presentIn_cons (k1 : String) (v : Bucket) (rest : List (String × Bucket)) (j : String) :
    presentIn ((k1, v) :: rest) j = true ↔ (k1 = j ∨ presentIn rest j = true) := by
  by_cases h : k1 = j <;> simp [presentIn, alookup, h]

/-- Effect of one clones increment on the clones reading. -/
theorem clonesAt_addClones (m : List (String × Bucket)) (k j : String) (c : ℕ) :
    clonesAt (addClones m k c) j = clonesAt m j + (if k = j then c else 0) := by
  induction m with
  | nil => by_cases h : k = j <;> simp [addClones, clonesAt, alookup, h]
  | cons hd rest ih =>
    obtain ⟨k1, v⟩ := hd
    by_cases h1 : k1 = k
    · subst h1
      by_cases h2 : k1 = j <;> simp [addClones, clonesAt_cons, h2]
    · by_cases h2 : k1 = j
      · subst h2
        have hkj : ¬ k = k1 := fun e => h1 e.symm
        simp [addClones, h1, clonesAt_cons, hkj]
      · simp [addClones, h1, clonesAt_cons, h2, ih]

/-- A clones increment leaves the views reading unchanged. -/
theorem viewsAt_addClones (m : List (String × Bucket)) (k j : String) (c : ℕ) :
    viewsAt (addClones m k c) j = viewsAt m j := by
  induction m with
  | nil => by_cases h : k = j <;> simp [addClones, viewsAt, alookup, h]
  | cons hd rest ih =>
    obtain ⟨k1, v⟩ := hd
    by_cases h1 : k1 = k
    · subst h1
      by_cases h2 : k1 = j <;> simp [addClones, viewsAt_cons, h2]
    · by_cases h2 : k1 = j
      · subst h2
        simp [addClones, h1, viewsAt_cons]
      · simp [addClones, h1, viewsAt_cons, h2, ih]

/-- Effect of one views increment on the views reading. -/
theorem viewsAt_addViews (m : List (String × Bucket)) (k j : String) (c : ℕ) :
    viewsAt (addViews m k c) j = viewsAt m j + (if k = j then c else 0) := by
  induction m with
  | nil => by_cases h : k = j <;> simp [addViews, viewsAt, alookup, h]
  | cons hd rest ih =>
    obtain ⟨k1, v⟩ := hd
    by_cases h1 : k1 = k
    · subst h1
      by_cases h2 : k1 = j <;> simp [addViews, viewsAt_cons, h2]
    · by_cases h2 : k1 = j
      · subst h2
        have hkj : ¬ k = k1 := fun e => h1 e.symm
        simp [addViews, h1, viewsAt_cons, hkj]
      · simp [addViews, h1, viewsAt_cons, h2, ih]

/-- A views increment leaves the clones reading unchanged. -/
theorem clonesAt_addViews (m : List (String × Bucket)) (k j : String) (c : ℕ) :
    clonesAt (addViews m k c) j = clonesAt m j := by
  induction m with
  | nil => by_cases h : k = j <;> simp [addViews, clonesAt, alookup, h]
  | cons hd rest ih =>
    obtain ⟨k1, v⟩ := hd
    by_cases h1 : k1 = k
    · subst h1
      by_cases h2 : k1 = j <;> simp [addViews, clonesAt_cons, h2]
    · by_cases h2 : k1 = j
      · subst h2
        simp [addViews, h1, clonesAt_cons]
      · simp [addViews, h1, clonesAt_cons, h2, ih]

/-- Presence after a clones increment. -/
theorem presentIn_addClones (m : List (String × Bucket)) (k j : String) (c : ℕ) :
    presentIn (addClones m k c) j = true ↔ (k = j ∨ presentIn m j = true) := by
  induction m with
  | nil => by_cases h : k = j <;> simp [addClones, presentIn, alookup, h]
  | cons hd rest ih =>
    obtain ⟨k1, v⟩ := hd
    by_cases h1 : k1 = k
    · subst h1
      rw [show addClones ((k1, v) :: rest) k1 c
          = (k1, ⟨v.clones + c, v.views⟩) :: rest from by simp [addClones]]
      rw [presentIn_cons, presentIn_cons]
      tauto
    · rw [show addClones ((k1, v) :: rest) k c
          = (k1, v) :: addClones rest k c from by simp [addClones, h1]]
      rw [presentIn_cons, presentIn_cons, ih]
      tauto

/-- Presence after a views increment. -/
theorem presentIn_addViews (m : List (String × Bucket)) (k j : String) (c : ℕ) :
    presentIn (addViews m k c) j = true ↔ (k = j ∨ presentIn m j = true) := by
  induction m with
  | nil => by_cases h : k = j <;> simp [addViews, presentIn, alookup, h]
  | cons hd rest ih =>
    obtain ⟨k1, v⟩ := hd
    by_cases h1 : k1 = k
    · subst h1
      rw [show addViews ((k1, v) :: rest) k1 c
          = (k1, ⟨v.clones, v.views + c⟩) :: rest from by simp [addViews]]
      rw [presentIn_cons, presentIn_cons]
      tauto
    · rw [show addViews ((k1, v) :: rest) k c
          = (k1, v) :: addViews rest k c from by simp [addViews, h1]]
      rw [presentIn_cons, presentIn_cons, ih]
      tauto

/-- Folding one repository's clones array adds exactly that array's per-day
sum to the clones reading. -/
theorem clonesAt_foldClones (pts : List TrafficPoint) (m : List (String × Bucket)) (j : String) :
    clonesAt (pts.foldl (fun acc p => addClones acc (dateOf p.timestamp) p.count) m) j
      = clonesAt m j + repoSumOn pts j := by
  induction pts generalizing m with
  | nil => simp [repoSumOn]
  | cons p rest ih =>
    rw [List.foldl_cons, ih, clonesAt_addClones]
    unfold repoSumOn
    by_cases h : dateOf p.timestamp = j
    · simp [List.filter_cons, h]
      omega
    · have hb : (dateOf p.timestamp == j) = false := by simpa using h
      simp [List.filter_cons, h, hb]

/-- Folding the clones array does not move the views reading. -/
theorem viewsAt_foldClones (pts : List TrafficPoint) (m : List (String × Bucket)) (j : String) :
    viewsAt (pts.foldl (fun acc p => addClones acc (dateOf p.timestamp) p.count) m) j
      = viewsAt m j := by
  induction pts generalizing m with
  | nil => rfl
  | cons p rest ih => rw [List.foldl_cons, ih, viewsAt_addClones]

/-- Folding one repository's views array adds exactly that array's per-day
sum to the views reading. -/
theorem viewsAt_foldViews (pts : List TrafficPoint) (m : List (String × Bucket)) (j : String) :
    viewsAt (pts.foldl (fun acc p => addViews acc (dateOf p.timestamp) p.count) m) j
      = viewsAt m j + repoSumOn pts j := by
  induction pts generalizing m with
  | nil => simp [repoSumOn]
  | cons p rest ih =>
    rw [List.foldl_cons, ih, viewsAt_addViews]
    unfold repoSumOn
    by_cases h : dateOf p.timestamp = j
    · simp [List.filter_cons, h]
      omega
    · have hb : (dateOf p.timestamp == j) = false := by simpa using h
      simp [List.filter_cons, h, hb]

/-- Folding the views array does not move the clones reading. -/
theorem clonesAt_foldViews (pts : List TrafficPoint) (m : List (String × Bucket)) (j : String) :
    clonesAt (pts.foldl (fun acc p => addViews acc (dateOf p.timestamp) p.count) m) j
      = clonesAt m j := by
  induction pts generalizing m with
  | nil => rfl
  | cons p rest ih => rw [List.foldl_cons, ih, clonesAt_addViews]

/-- Presence after folding the clones array: a day is present exactly when
it was present before or some point of the array falls on it. -/
theorem presentIn_foldClones (pts : List TrafficPoint) (m : List (String × Bucket)) (j : String) :
    presentIn (pts.foldl (fun acc p => addClones acc (dateOf p.timestamp) p.count) m) j = true
      ↔ ((∃ p ∈ pts, dateOf p.timestamp = j) ∨ presentIn m j = true) := by
  induction pts generalizing m with
  | nil => simp
  | cons p rest ih =>
    rw [List.foldl_cons, ih]
    rw [presentIn_addClones]
    simp only [List.mem_cons]
    constructor
    · rintro (⟨p1, hp1, hd⟩ | (hd | hp))
      · exact Or.inl ⟨p1, Or.inr hp1, hd⟩
      · exact Or.inl ⟨p, Or.inl rfl, hd⟩
      · exact Or.inr hp
    · rintro (⟨p1, (rfl | hp1), hd⟩ | hp)
      · exact Or.inr (Or.inl hd)
      · exact Or.inl ⟨p1, hp1, hd⟩
      · exact Or.inr (Or.inr hp)

/-- Presence after folding the views array. -/
theorem presentIn_foldViews (pts : List TrafficPoint) (m : List (String × Bucket)) (j : String) :
    presentIn (pts.foldl (fun acc p => addViews acc (dateOf p.timestamp) p.count) m) j = true
      ↔ ((∃ p ∈ pts, dateOf p.timestamp = j) ∨ presentIn m j = true) := by
  induction pts generalizing m with
  | nil => simp
  | cons p rest ih =>
    rw [List.foldl_cons, ih]
    rw [presentIn_addViews]
    simp only [List.mem_cons]
    constructor
    · rintro (⟨p1, hp1, hd⟩ | (hd | hp))
      · exact Or.inl ⟨p1, Or.inr hp1, hd⟩
      · exact Or.inl ⟨p, Or.inl rfl, hd⟩
      · exact Or.inr hp
    · rintro (⟨p1, (rfl | hp1), hd⟩ | hp)
      · exact Or.inr (Or.inl hd)
      · exact Or.inl ⟨p1, hp1, hd⟩
      · exact Or.inr (Or.inr hp)

/-- Processing one repository adds its clones per-day sum. -/
theorem clonesAt_processRepo (m : List (String × Bucket)) (t : RepoTraffic) (j : String) :
    clonesAt (processRepo m t) j = clonesAt m j + repoSumOn t.clones j := by
  unfold processRepo
  rw [clonesAt_foldViews, clonesAt_foldClones]

/-- Processing one repository adds its views per-day sum. -/
theorem viewsAt_processRepo (m : List (String × Bucket)) (t : RepoTraffic) (j : String) :
    viewsAt (processRepo m t) j = viewsAt m j + repoSumOn t.views j := by
  unfold processRepo
  rw [viewsAt_foldViews, viewsAt_foldClones]

/-- Presence after processing one repository. -/
theorem presentIn_processRepo (m : List (String × Bucket)) (t : RepoTraffic) (j : String) :
    presentIn (processRepo m t) j = true
      ↔ ((∃ p ∈ t.clones, dateOf p.timestamp = j) ∨ (∃ p ∈ t.views, dateOf p.timestamp = j)
          ∨ presentIn m j = true) := by
  unfold processRepo
  rw [presentIn_foldViews, presentIn_foldClones]
  constructor
  · rintro (h | h | h)
    · exact Or.inr (Or.inl h)
    · exact Or.inl h
    · exact Or.inr (Or.inr h)
  · rintro (h | h | h)
    · exact Or.inr (Or.inl h)
    · exact Or.inl h
    · exact Or.inr (Or.inr h)

/-- Clones reading of the full aggregation fold, for an arbitrary starting
series. -/
theorem clonesAt_aggAux (rs : List RepoTraffic) (ex : List String)
    (m : List (String × Bucket)) (j : String) :
    clonesAt (rs.foldl
        (fun acc t => if ex.contains t.repoName then acc else processRepo acc t) m) j
      = clonesAt m j + sumClonesOn rs ex j := by
  induction rs generalizing m with
  | nil => simp [sumClonesOn]
  | cons t rest ih =>
    rw [List.foldl_cons]
    by_cases h : ex.contains t.repoName = true
    · rw [if_pos h, ih]
      have hmem : t.repoName ∈ ex := by simpa using h
      unfold sumClonesOn
      simp [List.filter_cons, hmem]
    · rw [if_neg h, ih, clonesAt_processRepo]
      have hb : ex.contains t.repoName = false := by
        cases hx : ex.contains t.repoName
        · rfl
        · exact absurd hx h
      have hmem : t.repoName ∉ ex := by simpa using hb
      unfold sumClonesOn
      simp [List.filter_cons, hmem]
      omega

/-- Views reading of the full aggregation fold. -/
theorem viewsAt_aggAux (rs : List RepoTraffic) (ex : List String)
    (m : List (String × Bucket)) (j : String) :
    viewsAt (rs.foldl
        (fun acc t => if ex.contains t.repoName then acc else processRepo acc t) m) j
      = viewsAt m j + sumViewsOn rs ex j := by
  induction rs generalizing m with
  | nil => simp [sumViewsOn]
  | cons t rest ih =>
    rw [List.foldl_cons]
    by_cases h : ex.contains t.repoName = true
    · rw [if_pos h, ih]
      have hmem : t.repoName ∈ ex := by simpa using h
      unfold sumViewsOn
      simp [List.filter_cons, hmem]
    · rw [if_neg h, ih, viewsAt_processRepo]
      have hb : ex.contains t.repoName = false := by
        cases hx : ex.contains t.repoName
        · rfl
        · exact absurd hx h
      have hmem : t.repoName ∉ ex := by simpa using hb
      unfold sumViewsOn
      simp [List.filter_cons, hmem]
      omega

/-- Presence in the full aggregation fold. -/
theorem presentIn_aggAux (rs : List RepoTraffic) (ex : List String)
    (m : List (String × Bucket)) (j : String) :
    presentIn (rs.foldl
        (fun acc t => if ex.contains t.repoName then acc else processRepo acc t) m) j = true
      ↔ (contributesTo rs ex j ∨ presentIn m j = true) := by
  induction rs generalizing m with
  | nil => simp [contributesTo]
  | cons t rest ih =>
    rw [List.foldl_cons]
    by_cases h : ex.contains t.repoName = true
    · rw [if_pos h, ih]
      have hmem : t.repoName ∈ ex := by simpa using h
      simp only [contributesTo, List.mem_cons]
      constructor
      · rintro (⟨t1, ht1, hc⟩ | hp)
        · exact Or.inl ⟨t1, Or.inr ht1, hc⟩
        · exact Or.inr hp
      · rintro (⟨t1, (rfl | ht1), hc⟩ | hp)
        · exact absurd hmem hc.1
        · exact Or.inl ⟨t1, ht1, hc⟩
        · exact Or.inr hp
    · rw [if_neg h, ih, presentIn_processRepo]
      have hmem : t.repoName ∉ ex := by
        have hb : ex.contains t.repoName = false := by
          cases hx : ex.contains t.repoName
          · rfl
          · exact absurd hx h
        simpa using hb
      simp only [contributesTo, List.mem_cons]
      constructor
      · rintro (⟨t1, ht1, hc⟩ | (hcl | hvw | hp))
        · exact Or.inl ⟨t1, Or.inr ht1, hc⟩
        · exact Or.inl ⟨t, Or.inl rfl, hmem, Or.inl hcl⟩
        · exact Or.inl ⟨t, Or.inl rfl, hmem, Or.inr hvw⟩
        · exact Or.inr hp
      · rintro (⟨t1, (rfl | ht1), hc⟩ | hp)
        · rcases hc.2 with hcl | hvw
          · exact Or.inr (Or.inl hcl)
          · exact Or.inr (Or.inr (Or.inl hvw))
        · exact Or.inl ⟨t1, ht1, hc⟩
        · exact Or.inr (Or.inr (Or.inr hp))

/-- C4: the aggregated daily series maps each calendar day to the sum, over
the repositories not excluded, of that day's clone and view counts; a day
has a bucket exactly when some non-excluded repository has a point on it
(buckets start from `{clones: 0, views: 0}`, so a day touched only by
views still reads clones 0 and vice versa); and the dates are consumed in
ascending order — the consumed list is sorted and is a permutation of the
series' keys. -/
theorem c4_daily_series_aggregation (rs : List RepoTraffic) (ex : List String) (d : String) :
    clonesAt (aggregateTraffic rs ex) d = sumClonesOn rs ex d
    ∧ viewsAt (aggregateTraffic rs ex) d = sumViewsOn rs ex d
    ∧ (presentIn (aggregateTraffic rs ex) d = true ↔ contributesTo rs ex d)
    ∧ List.Sorted (fun a b => a ≤ b) (sortedDatesOf rs ex)
    ∧ (sortedDatesOf rs ex).Perm ((aggregateTraffic rs ex).map Prod.fst) := by
  refine ⟨?_, ?_, ?_, ?_, ?_⟩
  · have h := clonesAt_aggAux rs ex [] d
    simpa [aggregateTraffic, clonesAt, alookup] using h
  · have h := viewsAt_aggAux rs ex [] d
    simpa [aggregateTraffic, viewsAt, alookup] using h
  · have h := presentIn_aggAux rs ex [] d
    simpa [aggregateTraffic, presentIn, alookup] using h
  · exact List.sorted_insertionSort _ _
  · exact List.perm_insertionSort _ _

/-- Rounding an integer to the nearest integer changes nothing. -/
theorem rne_intCast (m : ℤ) : rne (m : ℚ) = m := by
  unfold rne
  rw [Int.floor_intCast]
  rw [if_pos (by norm_num)]

/-- The binade exponent of a positive integer value. -/
theorem log2_of_nat (n e : ℕ) (h1 : 2 ^ e ≤ n) (h2 : n < 2 ^ (e + 1)) :
    Int.log 2 ((n : ℚ)) = e := by
  rw [Int.log_natCast]
  exact_mod_cast Nat.log_eq_of_pow_le_of_lt_pow h1 h2

/-- A value whose 53-bit-scaled significand is an integer is a binary64
value and survives rounding unchanged. -/
theorem roundDouble_eq_self (x : ℚ) (e m : ℤ) (hx : x ≠ 0) (he : Int.log 2 |x| = e)
    (hm : x * 2 ^ ((52 : ℤ) - e) = (m : ℚ)) : roundDouble x = x := by
  unfold roundDouble
  rw [if_neg hx, he, hm, rne_intCast, ← hm]
  exact mul_div_cancel_right₀ x (zpow_ne_zero _ (by norm_num))

/-- The double 10^15 is exact. -/
theorem roundDouble_1e15 : roundDouble ((10 : ℚ) ^ 15) = 10 ^ 15 := by
  refine roundDouble_eq_self _ 49 (8 * 10 ^ 15) (by positivity) ?_ ?_
  · rw [abs_of_pos (by positivity), show ((10:ℚ)^15) = ((10 ^ 15 : ℕ) : ℚ) from by norm_num]
    exact log2_of_nat _ 49 (by norm_num) (by norm_num)
  · rw [show ((52:ℤ) - 49) = 3 from by norm_num]
    norm_num

/-- The double 2*10^15 is exact. -/
theorem roundDouble_2e15 : roundDouble (2 * (10 : ℚ) ^ 15) = 2 * 10 ^ 15 := by
  refine roundDouble_eq_self _ 50 (8 * 10 ^ 15) (by positivity) ?_ ?_
  · rw [abs_of_pos (by positivity),
      show (2 * (10:ℚ)^15) = ((2 * 10 ^ 15 : ℕ) : ℚ) from by norm_num]
    exact log2_of_nat _ 50 (by norm_num) (by norm_num)
  · rw [show ((52:ℤ) - 50) = 2 from by norm_num]
    norm_num

/-- The double 5 is exact. -/
theorem roundDouble_five : roundDouble (5 : ℚ) = 5 := by
  refine roundDouble_eq_self _ 2 (5 * 2 ^ 50) (by norm_num) ?_ ?_
  · rw [abs_of_pos (by norm_num), show (5:ℚ) = ((5 : ℕ) : ℚ) from by norm_num]
    exact log2_of_nat _ 2 (by norm_num) (by norm_num)
  · rw [show ((52:ℤ) - 2) = 50 from by norm_num]
    norm_num

/-- The double 10 is exact. -/
theorem roundDouble_ten : roundDouble (10 : ℚ) = 10 := by
  refine roundDouble_eq_self _ 3 (5 * 2 ^ 50) (by norm_num) ?_ ?_
  · rw [abs_of_pos (by norm_num), show (10:ℚ) = ((10 : ℕ) : ℚ) from by norm_num]
    exact log2_of_nat _ 3 (by norm_num) (by norm_num)
  · rw [show ((52:ℤ) - 3) = 49 from by norm_num]
    norm_num

/-- The double 10^16 is exact (its significand 5*10^15 fits in 53 bits). -/
theorem roundDouble_1e16 : roundDouble ((10 : ℚ) ^ 16) = 10 ^ 16 := by
  refine roundDouble_eq_self _ 53 (5 * 10 ^ 15) (by positivity) ?_ ?_
  · rw [abs_of_pos (by positivity), show ((10:ℚ)^16) = ((10 ^ 16 : ℕ) : ℚ) from by norm_num]
    exact log2_of_nat _ 53 (by norm_num) (by norm_num)
  · rw [show ((52:ℤ) - 53) = -1 from by norm_num]
    norm_num

/-- Converting the int 10^16 + 1 to a double rounds it down to 10^16: the
value sits exactly between the neighbouring doubles 10^16 and 10^16 + 2,
and the tie goes to the even significand 5*10^15. -/
theorem roundDouble_1e16_add_one : roundDouble ((10 : ℚ) ^ 16 + 1) = 10 ^ 16 := by
  have hx : ((10 : ℚ) ^ 16 + 1) ≠ 0 := by positivity
  have he : Int.log 2 |(10 : ℚ) ^ 16 + 1| = 53 := by
    rw [abs_of_pos (by positivity),
      show ((10:ℚ)^16 + 1) = ((10 ^ 16 + 1 : ℕ) : ℚ) from by norm_num]
    exact log2_of_nat _ 53 (by norm_num) (by norm_num)
  unfold roundDouble
  rw [if_neg hx, he, show ((52:ℤ) - 53) = -1 from by norm_num]
  have hq : ((10 : ℚ) ^ 16 + 1) * 2 ^ (-1 : ℤ) = ((5 * 10 ^ 15 : ℤ) : ℚ) + 1/2 := by
    rw [show ((2:ℚ) ^ (-1 : ℤ)) = 1/2 from by norm_num]
    push_cast
    ring
  rw [hq]
  have hfl : ⌊((5 * 10 ^ 15 : ℤ) : ℚ) + 1/2⌋ = 5 * 10 ^ 15 := by
    rw [Int.floor_int_add]
    norm_num
  unfold rne
  rw [hfl]
  rw [if_neg (by push_cast; norm_num)]
  rw [if_neg (by push_cast; norm_num)]
  rw [if_pos (by decide)]
  rw [show ((2:ℚ) ^ (-1 : ℤ)) = 1/2 from by norm_num]
  push_cast
  norm_num

/-- Projection of one `ticksForDouble` result. -/
theorem ticksForDouble_fst (fmax step magnitude : ℚ) :
    (ticksForDouble fmax step magnitude).1
      = roundDouble (((⌈roundDouble (fmax / roundDouble (step * magnitude / 10))⌉).toNat : ℚ)
          * roundDouble (step * magnitude / 10)) := rfl

/-- C5 counterexample: at `max_value = 10^16 + 1` the source's binary64
computation violates the claimed `niceMax ≥ maxValue`.  Converting the int
to a double rounds it to 10^16; the magnitude is 10^16; the step-1
candidate gives ceil 10 > 5, the step-2 candidate gives ceil(10^16 / (2*10^15))
= 5 ≤ 5 and is chosen, and the returned nice maximum 5 * 2*10^15 = 10^16
falls strictly below the requested maximum 10^16 + 1. -/
theorem c5_float_dominance_counterexample :
    (calculate_y_ticks_double ((10 : ℚ) ^ 16 + 1) 5).1 = (10 : ℚ) ^ 16
    ∧ (10 : ℚ) ^ 16 < (10 : ℚ) ^ 16 + 1 := by
  constructor
  · have hmag : pow10Double (floorLog10Double ((10 : ℚ) ^ 16)) = (10 : ℚ) ^ 16 := by
      unfold floorLog10Double pow10Double
      rw [show Int.log 10 ((10:ℚ)^16) = 16 from ?_, if_pos (by norm_num)]
      · norm_num
      · rw [show ((10:ℚ)^16) = ((10 ^ 16 : ℕ) : ℚ) from by norm_num, Int.log_natCast]
        exact_mod_cast Nat.log_eq_of_pow_le_of_lt_pow (by norm_num) (by norm_num)
    have hunit1 : roundDouble ((1 : ℚ) * (10 : ℚ) ^ 16 / 10) = (10 : ℚ) ^ 15 := by
      rw [show ((1:ℚ) * (10:ℚ)^16 / 10) = (10:ℚ)^15 from by norm_num]
      exact roundDouble_1e15
    have hunit2 : roundDouble ((2 : ℚ) * (10 : ℚ) ^ 16 / 10) = 2 * (10 : ℚ) ^ 15 := by
      rw [show ((2:ℚ) * (10:ℚ)^16 / 10) = 2 * (10:ℚ)^15 from by norm_num]
      exact roundDouble_2e15
    have hq1 : ⌈roundDouble ((10 : ℚ) ^ 16 / (10 : ℚ) ^ 15)⌉ = 10 := by
      rw [show ((10:ℚ)^16 / (10:ℚ)^15) = (10 : ℚ) from by norm_num, roundDouble_ten,
        show (10:ℚ) = (((10:ℤ)) : ℚ) from by norm_num]
      exact Int.ceil_intCast _
    have hq2 : ⌈roundDouble ((10 : ℚ) ^ 16 / (2 * (10 : ℚ) ^ 15))⌉ = 5 := by
      rw [show ((10:ℚ)^16 / (2 * (10:ℚ)^15)) = (5 : ℚ) from by norm_num, roundDouble_five,
        show (5:ℚ) = (((5:ℤ)) : ℚ) from by norm_num]
      exact Int.ceil_intCast _
    unfold calculate_y_ticks_double
    rw [if_neg (by norm_num : ¬ ((10:ℚ) ^ 16 + 1 ≤ 0))]
    rw [roundDouble_1e16_add_one, hmag]
    have hd1 : decide (⌈roundDouble ((10:ℚ)^16 / roundDouble ((1:ℚ) * (10:ℚ)^16 / 10))⌉
        ≤ ((5:ℕ) : ℤ)) = false := by
      rw [hunit1, hq1]
      decide
    have hd2 : decide (⌈roundDouble ((10:ℚ)^16 / roundDouble ((2:ℚ) * (10:ℚ)^16 / 10))⌉
        ≤ ((5:ℕ) : ℤ)) = true := by
      rw [hunit2, hq2]
      decide
    rw [show possible_steps.find? (fun step =>
        decide (⌈roundDouble ((10:ℚ)^16 / roundDouble (step * (10:ℚ)^16 / 10))⌉
          ≤ ((5:ℕ) : ℤ))) = some 2 from by
      unfold possible_steps
      rw [List.find?_cons_of_neg _ (by rw [hd1]; exact Bool.false_ne_true)]
      exact List.find?_cons_of_pos _ (by rw [hd2])]
    rw [ticksForDouble_fst, hunit2, hq2]
    rw [show ((((5:ℤ)).toNat : ℚ) * (2 * (10:ℚ)^15)) = (10:ℚ)^16 from by
      rw [show ((5:ℤ)).toNat = 5 from rfl]
      norm_num]
    exact roundDouble_1e16
  · norm_num

/-- Properties of one `ticksFor` result for any positive maximum, step and
magnitude: the nice maximum dominates the data maximum, the ticks run
strictly increasingly from 0 to the nice maximum in equal steps, and the
tick count is `ceil(max/unit) + 1`. -/
theorem ticksFor_props (maxV s mag : ℚ) (hm : 0 < maxV) (hs : 0 < s) (hmag : 0 < mag) :
    maxV ≤ (ticksFor maxV s mag).1
    ∧ ((ticksFor maxV s mag).2).head? = some 0
    ∧ ((ticksFor maxV s mag).2).getLast? = some ((ticksFor maxV s mag).1)
    ∧ ((ticksFor maxV s mag).2).Pairwise (fun x y => x < y)
    ∧ (∃ u, 0 < u ∧ (ticksFor maxV s mag).2
        = (List.range (((ticksFor maxV s mag).2).length)).map (fun i : ℕ => (i : ℚ) * u))
    ∧ ((ticksFor maxV s mag).2).length = (⌈maxV / (s * mag / 10)⌉).toNat + 1 := by
  have hu : 0 < s * mag / 10 := by positivity
  have hz : 0 < ⌈maxV / (s * mag / 10)⌉ := Int.ceil_pos.mpr (div_pos hm hu)
  have hzc : (((⌈maxV / (s * mag / 10)⌉).toNat : ℤ) : ℚ) = ((⌈maxV / (s * mag / 10)⌉ : ℤ) : ℚ) := by
    exact_mod_cast congrArg (fun z : ℤ => (z : ℚ)) (Int.toNat_of_nonneg hz.le)
  have hfst : (ticksFor maxV s mag).1
      = ((⌈maxV / (s * mag / 10)⌉).toNat : ℚ) * (s * mag / 10) := rfl
  have hsnd : (ticksFor maxV s mag).2
      = (List.range ((⌈maxV / (s * mag / 10)⌉).toNat + 1)).map
          (fun i : ℕ => (i : ℚ) * (s * mag / 10)) := rfl
  refine ⟨?_, ?_, ?_, ?_, ?_, ?_⟩
  · rw [hfst]
    have h1 : maxV / (s * mag / 10) ≤ (⌈maxV / (s * mag / 10)⌉ : ℚ) := Int.le_ceil _
    have h2 := mul_le_mul_of_nonneg_right h1 hu.le
    rw [div_mul_cancel₀ _ (ne_of_gt hu)] at h2
    calc maxV ≤ (⌈maxV / (s * mag / 10)⌉ : ℚ) * (s * mag / 10) := h2
      _ = ((⌈maxV / (s * mag / 10)⌉).toNat : ℚ) * (s * mag / 10) := by
          have hc : (((⌈maxV / (s * mag / 10)⌉).toNat : ℕ) : ℚ)
              = ((⌈maxV / (s * mag / 10)⌉ : ℤ) : ℚ) := by
            exact_mod_cast Int.toNat_of_nonneg hz.le
          rw [hc]
  · rw [hsnd, List.range_succ_eq_map]
    simp
  · rw [hsnd, hfst, List.range_succ, List.map_append]
    exact List.getLast?_concat _
  · rw [hsnd]
    exact (List.pairwise_lt_range _).map _
      (fun a b hab => by
        exact mul_lt_mul_of_pos_right (by exact_mod_cast hab) hu)
  · refine ⟨s * mag / 10, hu, ?_⟩
    rw [hsnd]
    simp
  · rw [hsnd]
    simp

/-- C5 amended: for every non-positive maximum and every tick budget the
computation returns `(0, [0])` — this holds of the source's binary64
computation as such (the comparison with 0 is exact), and of its
exact-arithmetic reading.  For a positive maximum the remaining claimed
properties hold of the exact-arithmetic reading of the computation: the
nice maximum is at least the data maximum, the tick list runs strictly
increasingly from 0 to the nice maximum in equal steps, and — whenever
some candidate step multiplier fits the budget, i.e. off the documented
fallback path — the tick count is at most the budget plus one.  Under the
source's binary64 arithmetic the int-to-double conversion of the maximum
can lower the nice maximum below the requested maximum once it exceeds
2^53, so the dominance clause does not hold of the float computation
universally (counterexample: `10^16 + 1`). -/
theorem c5_axis_scaler (max_value : ℚ) (target_ticks : ℕ) :
    (max_value ≤ 0 → calculate_y_ticks_double max_value target_ticks = (0, [0])
        ∧ calculate_y_ticks max_value target_ticks = (0, [0]))
    ∧ (0 < max_value →
        max_value ≤ (calculate_y_ticks max_value target_ticks).1
        ∧ ((calculate_y_ticks max_value target_ticks).2).head? = some 0
        ∧ ((calculate_y_ticks max_value target_ticks).2).getLast?
            = some ((calculate_y_ticks max_value target_ticks).1)
        ∧ ((calculate_y_ticks max_value target_ticks).2).Pairwise (fun x y => x < y)
        ∧ (∃ u, 0 < u ∧ (calculate_y_ticks max_value target_ticks).2
            = (List.range (((calculate_y_ticks max_value target_ticks).2).length)).map
                (fun i : ℕ => (i : ℚ) * u))
        ∧ ((∃ s ∈ possible_steps,
              ⌈max_value / (s * niceMagnitude max_value / 10)⌉ ≤ (target_ticks : ℤ)) →
            ((calculate_y_ticks max_value target_ticks).2).length ≤ target_ticks + 1)) := by
  constructor
  · intro h
    constructor
    · unfold calculate_y_ticks_double
      rw [if_pos h]
    · unfold calculate_y_ticks
      rw [if_pos h]
  · intro h
    have hmag : 0 < niceMagnitude max_value := by
      unfold niceMagnitude
      exact zpow_pos (by norm_num) _
    rcases hfind : possible_steps.find?
        (fun step =>
          decide (⌈max_value / (step * niceMagnitude max_value / 10)⌉ ≤ (target_ticks : ℤ)))
        with _ | s
    · have hrw : calculate_y_ticks max_value target_ticks
          = ticksFor max_value 10 (niceMagnitude max_value) := by
        unfold calculate_y_ticks
        rw [if_neg (not_le.mpr h), hfind]
      obtain ⟨h1, h2, h3, h4, h5, _⟩ :=
        ticksFor_props max_value 10 (niceMagnitude max_value) h (by norm_num) hmag
      rw [hrw]
      refine ⟨h1, h2, h3, h4, h5, ?_⟩
      rintro ⟨s0, hmem, hle⟩
      exact absurd (decide_eq_true hle) (List.find?_eq_none.mp hfind s0 hmem)
    · have hrw : calculate_y_ticks max_value target_ticks
          = ticksFor max_value s (niceMagnitude max_value) := by
        unfold calculate_y_ticks
        rw [if_neg (not_le.mpr h), hfind]
      have hmem : s ∈ possible_steps := List.mem_of_find?_eq_some hfind
      have hspos : 0 < s := by
        have : s = 1 ∨ s = 2 ∨ s = 5 ∨ s = 10 := by simpa [possible_steps] using hmem
        rcases this with rfl | rfl | rfl | rfl <;> norm_num
      have hle : ⌈max_value / (s * niceMagnitude max_value / 10)⌉ ≤ (target_ticks : ℤ) := by
        have hp0 := List.find?_some hfind
        have hp : decide (⌈max_value / (s * niceMagnitude max_value / 10)⌉
            ≤ (target_ticks : ℤ)) = true := hp0
        exact of_decide_eq_true hp
      obtain ⟨h1, h2, h3, h4, h5, hlen⟩ :=
        ticksFor_props max_value s (niceMagnitude max_value) h hspos hmag
      rw [hrw]
      refine ⟨h1, h2, h3, h4, h5, ?_⟩
      intro _
      rw [hlen]
      omega

/-- Witness for the amended C5 at concrete inputs: the non-positive clause
(on both the binary64 and the exact reading) at `(0, 3)` and the positive
clause's dominance conjunct at `(7, 5)`. -/
theorem c5_axis_scaler_witness :
    calculate_y_ticks_double 0 3 = (0, [0]) ∧ calculate_y_ticks 0 3 = (0, [0])
    ∧ (7 : ℚ) ≤ (calculate_y_ticks 7 5).1 :=
  ⟨((c5_axis_scaler 0 3).1 le_rfl).1, ((c5_axis_scaler 0 3).1 le_rfl).2,
   ((c5_axis_scaler 7 5).2 (by norm_num)).1⟩

end TrafficStats
